import Mathlib

/-
Verification of the session-lifecycle registry of ViconMAVLink's
`StationWindow` (src/StationWindow.cpp).

The registry state is the triple of `std::map<QString, std::unique_ptr<T>>`
members `senders`, `senderControllers`, `senderWindows` of `StationWindow`.
The two operations under study are:

  * `StationWindow::startSenderHandler`   (createSession in the spec)
  * `StationWindow::senderWindowCloseHandler` (removeSession / observer-closure)

`std::map` is embedded as an association list (`List (String × α)`) with
`mapFind` (= `map::find`), `mapInsert` (= `map::operator[]` followed by
assignment: replaces the value when the key is present, appends otherwise)
and `mapEraseKey` (key removal, destroying the held object).
`map::erase(it)` applied to the `end()` iterator is undefined behavior in
C++, so the close handler — which calls `erase(find(name))` unguarded on
`senderControllers` and `senders` — is embedded as an `Option`-returning
function that yields `none` when it would reach `erase(end())`.

Heap objects (`Sender`, `SenderController`, `SenderWindow`) are given
identities by a freshness counter `nextId` so that replacement (a second
`new` under an existing key) is observable.  Each operation also emits a
trace of events (construction, map insertion, `show()`, `connect`, map
erasure) so that ordering claims can be stated.
-/

namespace ViconMAVLink

/-- A `Sender` heap object: `new Sender(name, controller->getStation())`.
The `id` field is the model's object identity (allocation number). -/
structure Sender where
  name : String
  id : Nat
deriving DecidableEq

/-- A `SenderController` heap object:
`new SenderController(senders[name])`; `senderId` records which `Sender`
object the constructor received a reference to. -/
structure SenderController where
  id : Nat
  senderId : Nat
deriving DecidableEq

/-- A `SenderWindow` heap object: `new SenderWindow(name, senderControllers[name])`;
`controllerId` records which `SenderController` the constructor received. -/
structure SenderWindow where
  id : Nat
  name : String
  controllerId : Nat
deriving DecidableEq

/-- An ordered map `std::map<QString, unique_ptr<T>>` embedded as an
association list. -/
abbrev Map (α : Type) := List (String × α)

/-- `m.find(k)`: the value stored under `k`, if any. -/
def mapFind {α : Type} (m : Map α) (k : String) : Option α :=
  match m with
  | [] => none
  | (k', v) :: rest => if k' = k then some v else mapFind rest k

/-- `m[k] = v`: replaces the value at `k` when present, appends otherwise
(the old value's destructor runs on replacement). -/
def mapInsert {α : Type} (m : Map α) (k : String) (v : α) : Map α :=
  match m with
  | [] => [(k, v)]
  | (k', v') :: rest => if k' = k then (k, v) :: rest else (k', v') :: mapInsert rest k v

/-- `m.erase(m.find(k))` when `find` succeeded: removes the entry for `k`
(destroying the held object). -/
def mapEraseKey {α : Type} (m : Map α) (k : String) : Map α :=
  match m with
  | [] => []
  | (k', v') :: rest => if k' = k then rest else (k', v') :: mapEraseKey rest k

/-- The key sequence of a map, in storage order. -/
def mapKeys {α : Type} (m : Map α) : List String := m.map Prod.fst

/-- Removal of the first occurrence of a key from a key sequence. -/
def removeFirst (ks : List String) (k : String) : List String :=
  match ks with
  | [] => []
  | k' :: rest => if k' = k then rest else k' :: removeFirst rest k

/-- How many entries of `m` are stored under key `k`. -/
def countKey {α : Type} (m : Map α) (k : String) : Nat :=
  match m with
  | [] => 0
  | (k', _) :: rest => (if k' = k then 1 else 0) + countKey rest k

/-- The registry state: the three per-session maps of `StationWindow`,
plus the model's allocation counter giving heap objects their identities. -/
structure StationWindow where
  senders : Map Sender
  senderControllers : Map SenderController
  senderWindows : Map SenderWindow
  nextId : Nat
deriving DecidableEq

/-- Observable events emitted by the two handlers, in program order. -/
inductive Event where
  | constructSender (id : Nat) (name : String)
  | insertSender (name : String) (id : Nat)
  | constructController (id : Nat) (senderId : Nat)
  | insertController (name : String) (id : Nat)
  | constructWindow (id : Nat) (name : String) (controllerId : Nat)
  | insertWindow (name : String) (id : Nat)
  | showWindow (id : Nat)
  | connectCloseSignal (name : String)
  | messageBox (text : String)
  | eraseWindow (name : String) (id : Nat)
  | eraseController (name : String) (id : Nat)
  | eraseSender (name : String) (id : Nat)
deriving DecidableEq

/-- Result of `startSenderHandler`. -/
inductive StartResult where
  | noTargetSelected
  | started (name : String)
deriving DecidableEq

/-- `StationWindow::startSenderHandler` (src/StationWindow.cpp:134-161).
`currentItem` models `ui->listWidget->currentItem()` (the text of the
selected item, or `none` when no item is selected).  When an item is
selected the handler constructs a `Sender`, stores it in `senders[name]`,
constructs a `SenderController` from a reference to `senders[name]`,
stores it, constructs a `SenderWindow` from a reference to
`senderControllers[name]`, stores it, calls `senderWindows[name]->show()`
and connects the window's `closeSelf` signal. -/
def startSenderHandler (currentItem : Option String) (w : StationWindow) :
    StartResult × StationWindow × List Event :=
  match currentItem with
  | none => (StartResult.noTargetSelected, w, [Event.messageBox "Please select an object first!"])
  | some name =>
    let sender : Sender := { name := name, id := w.nextId }
    let senders1 := mapInsert w.senders name sender
    let senderRef := (mapFind senders1 name).getD sender
    let controller : SenderController := { id := w.nextId + 1, senderId := senderRef.id }
    let controllers1 := mapInsert w.senderControllers name controller
    let controllerRef := (mapFind controllers1 name).getD controller
    let window : SenderWindow := { id := w.nextId + 2, name := name, controllerId := controllerRef.id }
    let windows1 := mapInsert w.senderWindows name window
    let windowRef := (mapFind windows1 name).getD window
    (StartResult.started name,
     { senders := senders1, senderControllers := controllers1,
       senderWindows := windows1, nextId := w.nextId + 3 },
     [Event.constructSender sender.id name,
      Event.insertSender name sender.id,
      Event.constructController controller.id senderRef.id,
      Event.insertController name controller.id,
      Event.constructWindow window.id name controllerRef.id,
      Event.insertWindow name window.id,
      Event.showWindow windowRef.id,
      Event.connectCloseSignal name])

/-- `StationWindow::senderWindowCloseHandler` (src/StationWindow.cpp:170-185).
The `senderWindows` lookup is guarded (`if (it != std::end(senderWindows))`),
but `senderControllers.erase(it_c)` and `senders.erase(it_s)` run on the
result of `find` unconditionally; `std::map::erase(end())` is undefined
behavior, embedded here as `none`. -/
def senderWindowCloseHandler (name : String) (w : StationWindow) :
    Option (StationWindow × List Event) :=
  let step1 : Map SenderWindow × List Event :=
    match mapFind w.senderWindows name with
    | some win => (mapEraseKey w.senderWindows name, [Event.eraseWindow name win.id])
    | none => (w.senderWindows, [])
  match mapFind w.senderControllers name, mapFind w.senders name with
  | some c, some s =>
      some ({ senders := mapEraseKey w.senders name,
              senderControllers := mapEraseKey w.senderControllers name,
              senderWindows := step1.1,
              nextId := w.nextId },
            step1.2 ++ [Event.eraseController name c.id, Event.eraseSender name s.id])
  | some _, none => none
  | none, _ => none

/-- The spec's `listSessionNames()` query: the registered session names in
storage order (keys of the primary map). -/
def listSessionNames (w : StationWindow) : List String := mapKeys w.senders

/-- The registry with no sessions. -/
def emptyStation : StationWindow :=
  { senders := [], senderControllers := [], senderWindows := [], nextId := 0 }

/-- The registry after one `startSenderHandler` for `n` from the empty state. -/
def afterCreate (n : String) : StationWindow :=
  (startSenderHandler (some n) emptyStation).2.1

/-- The all-or-none session invariant: every name has either all three
sub-objects registered (one per map) or none of them. -/
def allOrNone (w : StationWindow) : Prop :=
  ∀ n : String,
    ((mapFind w.senders n).isSome ↔ (mapFind w.senderControllers n).isSome) ∧
    ((mapFind w.senders n).isSome ↔ (mapFind w.senderWindows n).isSome)

/-- The three per-session maps hold exactly the same key sequence. -/
def mapsSynced (w : StationWindow) : Prop :=
  mapKeys w.senderControllers = mapKeys w.senders ∧
  mapKeys w.senderWindows = mapKeys w.senders

/-! ### Basic lemmas about the map embedding -/

theorem mapFind_mapInsert_self {α : Type} (m : Map α) (k : String) (v : α) :
    mapFind (mapInsert m k v) k = some v := by
  induction m with
  | nil => simp [mapInsert, mapFind]
  | cons hd tl ih =>
    obtain ⟨k', v'⟩ := hd
    by_cases h : k' = k <;> simp [mapInsert, mapFind, h, ih]

theorem mapFind_mapInsert_ne {α : Type} (m : Map α) {k k' : String} (v : α) (h : k' ≠ k) :
    mapFind (mapInsert m k v) k' = mapFind m k' := by
  induction m with
  | nil => simp [mapInsert, mapFind, Ne.symm h]
  | cons hd tl ih =>
    obtain ⟨a, b⟩ := hd
    by_cases ha : a = k
    · subst ha
      simp [mapInsert, mapFind, Ne.symm h]
    · by_cases hb : a = k'
      · subst hb
        simp [mapInsert, mapFind, ha, h]
      · simp [mapInsert, mapFind, ha, hb, ih]

theorem mapFind_mapEraseKey_ne {α : Type} (m : Map α) {k k' : String} (h : k' ≠ k) :
    mapFind (mapEraseKey m k) k' = mapFind m k' := by
  induction m with
  | nil => simp [mapEraseKey]
  | cons hd tl ih =>
    obtain ⟨a, b⟩ := hd
    by_cases ha : a = k
    · subst ha
      simp [mapEraseKey, mapFind, Ne.symm h]
    · by_cases hb : a = k'
      · subst hb
        simp [mapEraseKey, mapFind, ha, h]
      · simp [mapEraseKey, mapFind, ha, hb, ih]

theorem mapFind_eq_none_iff {α : Type} (m : Map α) (k : String) :
    mapFind m k = none ↔ k ∉ mapKeys m := by
  induction m with
  | nil => simp [mapFind, mapKeys]
  | cons hd tl ih =>
    obtain ⟨a, b⟩ := hd
    by_cases ha : a = k
    · subst ha
      simp [mapFind, mapKeys]
    · simp [mapFind, mapKeys, ha, ih, Ne.symm ha]

theorem mapFind_mapEraseKey_self {α : Type} (m : Map α) (k : String)
    (hnd : (mapKeys m).Nodup) : mapFind (mapEraseKey m k) k = none := by
  induction m with
  | nil => simp [mapEraseKey, mapFind]
  | cons hd tl ih =>
    obtain ⟨a, b⟩ := hd
    simp only [mapKeys, List.map_cons, List.nodup_cons] at hnd
    by_cases ha : a = k
    · subst ha
      simp only [mapEraseKey, if_pos rfl]
      rw [mapFind_eq_none_iff]
      exact hnd.1
    · simp [mapEraseKey, mapFind, ha, ih hnd.2]

theorem mapEraseKey_not_mem {α : Type} (m : Map α) (k : String)
    (h : k ∉ mapKeys m) : mapEraseKey m k = m := by
  induction m with
  | nil => rfl
  | cons hd tl ih =>
    obtain ⟨a, b⟩ := hd
    simp only [mapKeys, List.map_cons, List.mem_cons, not_or] at h
    have ha : a ≠ k := fun hh => h.1 hh.symm
    simp [mapEraseKey, ha, ih h.2]

theorem mapKeys_mapInsert {α : Type} (m : Map α) (k : String) (v : α) :
    mapKeys (mapInsert m k v) =
      if k ∈ mapKeys m then mapKeys m else mapKeys m ++ [k] := by
  induction m with
  | nil => simp [mapInsert, mapKeys]
  | cons hd tl ih =>
    obtain ⟨a, b⟩ := hd
    by_cases ha : a = k
    · subst ha
      simp [mapInsert, mapKeys]
    · simp only [mapInsert, if_neg ha, mapKeys, List.map_cons] at *
      rw [ih]
      by_cases hk : k ∈ List.map Prod.fst tl <;>
        simp [hk, Ne.symm ha]

theorem mapKeys_mapEraseKey {α : Type} (m : Map α) (k : String) :
    mapKeys (mapEraseKey m k) = removeFirst (mapKeys m) k := by
  induction m with
  | nil => rfl
  | cons hd tl ih =>
    obtain ⟨a, b⟩ := hd
    by_cases ha : a = k
    · subst ha
      simp [mapEraseKey, mapKeys, removeFirst]
    · simp only [mapEraseKey, if_neg ha, mapKeys, List.map_cons, removeFirst, if_neg ha]
      exact congrArg (List.cons a) ih

theorem mem_mapKeys_mapInsert_self {α : Type} (m : Map α) (k : String) (v : α) :
    k ∈ mapKeys (mapInsert m k v) := by
  rw [mapKeys_mapInsert]
  by_cases h : k ∈ mapKeys m <;> simp [h]

theorem countKey_mapInsert {α : Type} (m : Map α) (k : String) (v : α) :
    countKey (mapInsert m k v) k = if countKey m k = 0 then 1 else countKey m k := by
  induction m with
  | nil => simp [mapInsert, countKey]
  | cons hd tl ih =>
    obtain ⟨a, b⟩ := hd
    by_cases ha : a = k
    · subst ha
      have h1 : mapInsert ((a, b) :: tl) a v = (a, v) :: tl := by
        simp [mapInsert]
      have h2 : ∀ (x : α), countKey ((a, x) :: tl) a = 1 + countKey tl a := by
        intro x
        simp [countKey]
      rw [h1, h2, h2, if_neg (by omega)]
    · have h1 : mapInsert ((a, b) :: tl) k v = (a, b) :: mapInsert tl k v := by
        simp [mapInsert, ha]
      have h2 : ∀ (x : α) (l : Map α), countKey ((a, x) :: l) k = countKey l k := by
        intro x l
        simp [countKey, ha]
      rw [h1, h2 b (mapInsert tl k v), h2 b tl, ih]

/-! ### Shape lemmas for the two handlers -/

theorem startSenderHandler_result (name : String) (w : StationWindow) :
    (startSenderHandler (some name) w).1 = StartResult.started name := rfl

theorem startSenderHandler_state (name : String) (w : StationWindow) :
    (startSenderHandler (some name) w).2.1 =
      { senders := mapInsert w.senders name { name := name, id := w.nextId },
        senderControllers :=
          mapInsert w.senderControllers name { id := w.nextId + 1, senderId := w.nextId },
        senderWindows :=
          mapInsert w.senderWindows name
            { id := w.nextId + 2, name := name, controllerId := w.nextId + 1 },
        nextId := w.nextId + 3 } := by
  simp [startSenderHandler, mapFind_mapInsert_self]

theorem startSenderHandler_trace (name : String) (w : StationWindow) :
    (startSenderHandler (some name) w).2.2 =
      [Event.constructSender w.nextId name,
       Event.insertSender name w.nextId,
       Event.constructController (w.nextId + 1) w.nextId,
       Event.insertController name (w.nextId + 1),
       Event.constructWindow (w.nextId + 2) name (w.nextId + 1),
       Event.insertWindow name (w.nextId + 2),
       Event.showWindow (w.nextId + 2),
       Event.connectCloseSignal name] := by
  simp [startSenderHandler, mapFind_mapInsert_self]

theorem senderWindowCloseHandler_some (name : String) (w w' : StationWindow)
    (tr : List Event) (h : senderWindowCloseHandler name w = some (w', tr)) :
    w'.senders = mapEraseKey w.senders name ∧
    w'.senderControllers = mapEraseKey w.senderControllers name ∧
    w'.senderWindows = mapEraseKey w.senderWindows name ∧
    w'.nextId = w.nextId := by
  unfold senderWindowCloseHandler at h
  rcases hfc : mapFind w.senderControllers name with _ | c
  · rw [hfc] at h
    simp at h
  rcases hfs : mapFind w.senders name with _ | s
  · rw [hfc, hfs] at h
    simp at h
  rw [hfc, hfs] at h
  rcases hfw : mapFind w.senderWindows name with _ | win
  · rw [hfw] at h
    simp only [Option.some.injEq, Prod.mk.injEq] at h
    have hid : w.senderWindows = mapEraseKey w.senderWindows name := by
      rw [mapEraseKey_not_mem]
      rw [← mapFind_eq_none_iff]
      exact hfw
    rw [← h.1]
    exact ⟨rfl, rfl, hid, rfl⟩
  · rw [hfw] at h
    simp only [Option.some.injEq, Prod.mk.injEq] at h
    rw [← h.1]
    exact ⟨rfl, rfl, rfl, rfl⟩

/-! ### Claim theorems -/

/-- C6: when no target entity is selectable (`currentItem()` is null),
`startSenderHandler` fails with the no-target error, surfaces a user-facing
message box, and returns the registry completely unchanged — the trace
contains only the message box, no construction or registration event. -/
theorem no_target_selected_no_state_change (w : StationWindow) :
    startSenderHandler none w =
      (StartResult.noTargetSelected, w,
       [Event.messageBox "Please select an object first!"]) := rfl

/-- C3 (code bug witness): invoking the close handler for a name that is
not registered does not return successfully with no side effect — it
reaches `senderControllers.erase(end())` / `senders.erase(end())`, which is
undefined behavior, embedded as `none`.  Shown both on the empty registry
and on a registry holding an unrelated session. -/
theorem close_unregistered_undefined :
    senderWindowCloseHandler "drone1" emptyStation = none ∧
    senderWindowCloseHandler "drone1" (afterCreate "alpha") = none := by
  constructor
  · rfl
  · decide

/-- C7 (code bug witness): after `createSession("drone1")`, one closure
signal removes the session (`listSessionNames` becomes empty), but a second
closure signal reaches `map::erase(end())` — undefined behavior (`none`) —
so the once-vs-twice end states are not the same. -/
theorem double_close_undefined :
    (senderWindowCloseHandler "drone1" (afterCreate "drone1")).map
        (fun p => listSessionNames p.1) = some [] ∧
    (senderWindowCloseHandler "drone1" (afterCreate "drone1")).bind
        (fun p => senderWindowCloseHandler "drone1" p.1) = none := by
  decide

/-- C9 counterexample: with a selected list item whose text is the empty
string, `startSenderHandler` does not fail — it creates and registers a
session under the empty-string key, changing the registry's name set. -/
theorem empty_name_creates_session_cex :
    (startSenderHandler (some "") emptyStation).1 ≠ StartResult.noTargetSelected ∧
    listSessionNames (startSenderHandler (some "") emptyStation).2.1 = [""] := by
  decide

/-- C9 as amended: `startSenderHandler` validates only that some item is
selected; it performs no emptiness check on the name, so a selected item
with empty text creates and registers a session keyed by the empty string,
while a null selection fails with the no-target error and no state change. -/
theorem empty_name_not_validated (w : StationWindow) :
    (startSenderHandler (some "") w).1 = StartResult.started "" ∧
    mapFind (startSenderHandler (some "") w).2.1.senders "" =
      some { name := "", id := w.nextId } ∧
    (startSenderHandler none w).1 = StartResult.noTargetSelected ∧
    (startSenderHandler none w).2.1 = w := by
  refine ⟨rfl, ?_, rfl, rfl⟩
  rw [startSenderHandler_state]
  exact mapFind_mapInsert_self w.senders "" _

/-- C2 counterexample: a second `startSenderHandler` for an already
registered name does not return a duplicate-session error — it succeeds
and the `Sender` stored under the name is no longer the one stored after
the first call (the sub-objects were replaced). -/
theorem duplicate_create_replaces_cex :
    (startSenderHandler (some "alpha") (afterCreate "alpha")).1 =
      StartResult.started "alpha" ∧
    mapFind (startSenderHandler (some "alpha") (afterCreate "alpha")).2.1.senders
        "alpha" ≠ mapFind (afterCreate "alpha").senders "alpha" := by
  decide

/-- C2 as amended: for a name `n` already registered, a second
`startSenderHandler` succeeds (no error is reported), silently replaces the
existing session's sub-objects with newly constructed ones, and the
registry still holds exactly one entry named `n`. -/
theorem duplicate_create_replaces (w : StationWindow) (n : String) (s : Sender)
    (hs : mapFind w.senders n = some s) (hid : s.id < w.nextId)
    (hcount : countKey w.senders n = 1) :
    (startSenderHandler (some n) w).1 = StartResult.started n ∧
    mapFind (startSenderHandler (some n) w).2.1.senders n =
      some { name := n, id := w.nextId } ∧
    ({ name := n, id := w.nextId } : Sender) ≠ s ∧
    countKey (startSenderHandler (some n) w).2.1.senders n = 1 := by
  refine ⟨rfl, ?_, ?_, ?_⟩
  · rw [startSenderHandler_state]
    exact mapFind_mapInsert_self w.senders n _
  · intro hEq
    have h2 := congrArg Sender.id hEq
    simp only at h2
    omega
  · rw [startSenderHandler_state]
    show countKey (mapInsert w.senders n { name := n, id := w.nextId }) n = 1
    rw [countKey_mapInsert, hcount]
    rfl

/-- Witness for C2: the concrete duplicate creation of `"alpha"`. -/
theorem duplicate_create_replaces_witness :
    (startSenderHandler (some "alpha") (afterCreate "alpha")).1 =
      StartResult.started "alpha" ∧
    mapFind (startSenderHandler (some "alpha") (afterCreate "alpha")).2.1.senders
        "alpha" = some { name := "alpha", id := (afterCreate "alpha").nextId } ∧
    ({ name := "alpha", id := (afterCreate "alpha").nextId } : Sender) ≠
      { name := "alpha", id := 0 } ∧
    countKey (startSenderHandler (some "alpha") (afterCreate "alpha")).2.1.senders
        "alpha" = 1 :=
  duplicate_create_replaces (afterCreate "alpha") "alpha"
    { name := "alpha", id := 0 } (by decide) (by decide) (by decide)

/-- C4: in every successful `startSenderHandler` run, the `Sender` is
constructed first, then the `SenderController` — whose constructor receives
exactly the just-constructed `Sender` — then the `SenderWindow` — whose
constructor receives exactly the just-constructed `SenderController`. -/
theorem construction_order_resource_coordinator_observer
    (name : String) (w : StationWindow) :
    ∃ i j k sid cid wid,
      i < j ∧ j < k ∧
      ((startSenderHandler (some name) w).2.2).get? i =
        some (Event.constructSender sid name) ∧
      ((startSenderHandler (some name) w).2.2).get? j =
        some (Event.constructController cid sid) ∧
      ((startSenderHandler (some name) w).2.2).get? k =
        some (Event.constructWindow wid name cid) := by
  refine ⟨0, 2, 4, w.nextId, w.nextId + 1, w.nextId + 2,
    by omega, by omega, ?_, ?_, ?_⟩ <;> rw [startSenderHandler_trace] <;> rfl

/-- C5: for a registered name, the close handler destroys the sub-objects
in reverse construction order — the `SenderWindow` is erased (destroying
it) first, then the `SenderController`, then the `Sender` — and the event
that removes the name from the last registry map (`senders`) is the final
step of the operation. -/
theorem close_destroys_reverse_order (w : StationWindow) (name : String)
    (win : SenderWindow) (c : SenderController) (s : Sender)
    (hw : mapFind w.senderWindows name = some win)
    (hc : mapFind w.senderControllers name = some c)
    (hs : mapFind w.senders name = some s) :
    senderWindowCloseHandler name w =
      some ({ senders := mapEraseKey w.senders name,
              senderControllers := mapEraseKey w.senderControllers name,
              senderWindows := mapEraseKey w.senderWindows name,
              nextId := w.nextId },
            [Event.eraseWindow name win.id,
             Event.eraseController name c.id,
             Event.eraseSender name s.id]) := by
  unfold senderWindowCloseHandler
  rw [hw, hc, hs]
  rfl

/-- Witness for C5: closing the session `"drone1"` created from the empty
registry. -/
theorem close_destroys_reverse_order_witness :
    senderWindowCloseHandler "drone1" (afterCreate "drone1") =
      some ({ senders := mapEraseKey (afterCreate "drone1").senders "drone1",
              senderControllers :=
                mapEraseKey (afterCreate "drone1").senderControllers "drone1",
              senderWindows :=
                mapEraseKey (afterCreate "drone1").senderWindows "drone1",
              nextId := (afterCreate "drone1").nextId },
            [Event.eraseWindow "drone1" 2,
             Event.eraseController "drone1" 1,
             Event.eraseSender "drone1" 0]) :=
  close_destroys_reverse_order (afterCreate "drone1") "drone1"
    { id := 2, name := "drone1", controllerId := 1 }
    { id := 1, senderId := 0 }
    { name := "drone1", id := 0 }
    (by decide) (by decide) (by decide)

/-- C8: in every execution of `startSenderHandler`, any `show()` of the
`SenderWindow` (the observer's activation) occurs strictly after the
registration of all three sub-objects under the session's name; in
particular no activation happens at all when no item is selected. -/
theorem show_after_registration (item : Option String) (w : StationWindow) :
    ∀ j x, ((startSenderHandler item w).2.2).get? j = some (Event.showWindow x) →
      ∃ name a b c i₁ i₂ i₃, item = some name ∧
        i₁ < j ∧ i₂ < j ∧ i₃ < j ∧
        ((startSenderHandler item w).2.2).get? i₁ =
          some (Event.insertSender name a) ∧
        ((startSenderHandler item w).2.2).get? i₂ =
          some (Event.insertController name b) ∧
        ((startSenderHandler item w).2.2).get? i₃ =
          some (Event.insertWindow name c) := by
  intro j x h
  rcases item with _ | name
  · exfalso
    rcases j with _ | j
    · simp [startSenderHandler] at h
    · simp [startSenderHandler] at h
  · rw [startSenderHandler_trace] at h
    rcases j with _ | _ | _ | _ | _ | _ | _ | _ | j
    · simp at h
    · simp at h
    · simp at h
    · simp at h
    · simp at h
    · simp at h
    · exact ⟨name, w.nextId, w.nextId + 1, w.nextId + 2, 1, 3, 5, rfl,
        by omega, by omega, by omega,
        by rw [startSenderHandler_trace]; rfl,
        by rw [startSenderHandler_trace]; rfl,
        by rw [startSenderHandler_trace]; rfl⟩
    · simp at h
    · simp [List.get?] at h

/-- Witness for C8: the concrete activation event of `"drone1"`'s window,
at trace index 6, with the three registrations at indices 1, 3, 5. -/
theorem show_after_registration_witness :
    ∃ name a b c i₁ i₂ i₃, (some "drone1" : Option String) = some name ∧
      i₁ < 6 ∧ i₂ < 6 ∧ i₃ < 6 ∧
      ((startSenderHandler (some "drone1") emptyStation).2.2).get? i₁ =
        some (Event.insertSender name a) ∧
      ((startSenderHandler (some "drone1") emptyStation).2.2).get? i₂ =
        some (Event.insertController name b) ∧
      ((startSenderHandler (some "drone1") emptyStation).2.2).get? i₃ =
        some (Event.insertWindow name c) :=
  show_after_registration (some "drone1") emptyStation 6 2 (by decide)

/-- C1: the all-or-none invariant — every name has either all three
sub-objects registered or none — is preserved by every completed
`startSenderHandler` and every completed `senderWindowCloseHandler`, so no
partial session is ever observable between operations (both handlers run
atomically on the single GUI thread). -/
theorem registry_all_or_none_invariant (w : StationWindow)
    (hnd : (mapKeys w.senders).Nodup ∧ (mapKeys w.senderControllers).Nodup ∧
      (mapKeys w.senderWindows).Nodup)
    (h : allOrNone w) :
    (∀ item : Option String, allOrNone (startSenderHandler item w).2.1) ∧
    (∀ name w' tr, senderWindowCloseHandler name w = some (w', tr) →
      allOrNone w') := by
  constructor
  · intro item
    rcases item with _ | name
    · exact h
    · intro n
      by_cases hn : n = name
      · subst hn
        constructor <;> simp [startSenderHandler_state, mapFind_mapInsert_self]
      · have e1 : mapFind (startSenderHandler (some name) w).2.1.senders n =
            mapFind w.senders n := by
          rw [startSenderHandler_state]
          exact mapFind_mapInsert_ne w.senders _ hn
        have e2 : mapFind (startSenderHandler (some name) w).2.1.senderControllers n =
            mapFind w.senderControllers n := by
          rw [startSenderHandler_state]
          exact mapFind_mapInsert_ne w.senderControllers _ hn
        have e3 : mapFind (startSenderHandler (some name) w).2.1.senderWindows n =
            mapFind w.senderWindows n := by
          rw [startSenderHandler_state]
          exact mapFind_mapInsert_ne w.senderWindows _ hn
        exact ⟨by rw [e1, e2]; exact (h n).1, by rw [e1, e3]; exact (h n).2⟩
  · intro name w' tr hcl
    obtain ⟨h1, h2, h3, _⟩ := senderWindowCloseHandler_some name w w' tr hcl
    intro n
    by_cases hn : n = name
    · subst hn
      rw [h1, h2, h3]
      constructor <;>
        simp [mapFind_mapEraseKey_self w.senders n hnd.1,
          mapFind_mapEraseKey_self w.senderControllers n hnd.2.1,
          mapFind_mapEraseKey_self w.senderWindows n hnd.2.2]
    · rw [h1, h2, h3, mapFind_mapEraseKey_ne w.senders hn,
        mapFind_mapEraseKey_ne w.senderControllers hn,
        mapFind_mapEraseKey_ne w.senderWindows hn]
      exact h n

/-- Witness for C1: the invariant holds after creating `"drone1"` from the
empty registry. -/
theorem registry_all_or_none_invariant_witness :
    allOrNone (startSenderHandler (some "drone1") emptyStation).2.1 :=
  (registry_all_or_none_invariant emptyStation
      ⟨List.nodup_nil, List.nodup_nil, List.nodup_nil⟩
      (fun _ => ⟨Iff.rfl, Iff.rfl⟩)).1 (some "drone1")

/-- C10: if `senders`, `senderControllers` and `senderWindows` hold the
same key sequence, then after any completed `startSenderHandler` or
`senderWindowCloseHandler` they still do; moreover `startSenderHandler`
inserts the session's name into all three maps before returning, and a
completed close erases that name from all three maps before returning. -/
theorem maps_same_keys_invariant (w : StationWindow) (h : mapsSynced w) :
    (∀ item : Option String, mapsSynced (startSenderHandler item w).2.1) ∧
    (∀ name : String,
        name ∈ mapKeys (startSenderHandler (some name) w).2.1.senders ∧
        name ∈ mapKeys (startSenderHandler (some name) w).2.1.senderControllers ∧
        name ∈ mapKeys (startSenderHandler (some name) w).2.1.senderWindows) ∧
    (∀ name w' tr, senderWindowCloseHandler name w = some (w', tr) →
        mapsSynced w' ∧
        mapKeys w'.senders = removeFirst (mapKeys w.senders) name ∧
        mapKeys w'.senderControllers =
          removeFirst (mapKeys w.senderControllers) name ∧
        mapKeys w'.senderWindows = removeFirst (mapKeys w.senderWindows) name) := by
  obtain ⟨hc, hw2⟩ := h
  refine ⟨?_, ?_, ?_⟩
  · intro item
    rcases item with _ | name
    · exact ⟨hc, hw2⟩
    · have k1 : mapKeys (startSenderHandler (some name) w).2.1.senders =
          (if name ∈ mapKeys w.senders then mapKeys w.senders
           else mapKeys w.senders ++ [name]) := by
        rw [startSenderHandler_state]
        exact mapKeys_mapInsert w.senders name _
      have k2 : mapKeys (startSenderHandler (some name) w).2.1.senderControllers =
          (if name ∈ mapKeys w.senders then mapKeys w.senders
           else mapKeys w.senders ++ [name]) := by
        rw [startSenderHandler_state]
        have := mapKeys_mapInsert w.senderControllers name
          { id := w.nextId + 1, senderId := w.nextId }
        rw [hc] at this
        exact this
      have k3 : mapKeys (startSenderHandler (some name) w).2.1.senderWindows =
          (if name ∈ mapKeys w.senders then mapKeys w.senders
           else mapKeys w.senders ++ [name]) := by
        rw [startSenderHandler_state]
        have := mapKeys_mapInsert w.senderWindows name
          { id := w.nextId + 2, name := name, controllerId := w.nextId + 1 }
        rw [hw2] at this
        exact this
      exact ⟨k2.trans k1.symm, k3.trans k1.symm⟩
  · intro name
    refine ⟨?_, ?_, ?_⟩ <;> rw [startSenderHandler_state] <;>
      exact mem_mapKeys_mapInsert_self _ _ _
  · intro name w' tr hcl
    obtain ⟨h1, h2, h3, _⟩ := senderWindowCloseHandler_some name w w' tr hcl
    have r1 : mapKeys w'.senders = removeFirst (mapKeys w.senders) name := by
      rw [h1]
      exact mapKeys_mapEraseKey _ _
    have r2 : mapKeys w'.senderControllers =
        removeFirst (mapKeys w.senderControllers) name := by
      rw [h2]
      exact mapKeys_mapEraseKey _ _
    have r3 : mapKeys w'.senderWindows =
        removeFirst (mapKeys w.senderWindows) name := by
      rw [h3]
      exact mapKeys_mapEraseKey _ _
    refine ⟨⟨?_, ?_⟩, r1, r2, r3⟩
    · rw [r2, r1, hc]
    · rw [r3, r1, hw2]

/-- Witness for C10: key synchronization after creating `"drone1"` from the
empty registry. -/
theorem maps_same_keys_invariant_witness :
    mapsSynced (startSenderHandler (some "drone1") emptyStation).2.1 :=
  (maps_same_keys_invariant emptyStation ⟨rfl, rfl⟩).1 (some "drone1")

end ViconMAVLink
